import Mathlib

/-!
Shallow embedding of `src/libsignal/ecc.rs` from libsignal-protocol-rust:
typed elliptic-curve key containers, the wire codec (`decode_point`,
`decode_private_point`, `serialize`) and the agreement facade
(`calculate_agreement`).

Bytes (Rust `u8`) are modelled as `Nat`; every buffer the code builds only
holds values below 256, and the code masks the one byte it inspects with
`&&& 0xff` exactly as the source does.  Fixed `[u8; 32]` arrays are modelled
as lists of length exactly 32 (`Bytes32`).  Rust panics (integer-overflow on
`usize` subtraction, out-of-bounds indexing) are a distinct outcome of the
embedding, separate from the typed `InvalidKeyError` results.
-/

/-- The single supported curve-type tag (`static DJB_TYPE: u8 = 0x05`). -/
def DJB_TYPE : Nat := 0x05

/-- `pub struct InvalidKeyError(pub String)` — the one error kind, carrying a
human-readable message. -/
structure InvalidKeyError where
  msg : String
deriving DecidableEq

/-- A fixed 32-byte buffer, the model of Rust `[u8; 32]`. -/
def Bytes32 : Type := { l : List Nat // l.length = 32 }

instance : DecidableEq Bytes32 :=
  fun a b => decidable_of_iff (a.val = b.val) Subtype.ext_iff.symm

instance {ε α : Type} [DecidableEq ε] [DecidableEq α] :
    DecidableEq (Except ε α) := fun x y =>
  match x, y with
  | .ok a, .ok b =>
    if h : a = b then .isTrue (congrArg Except.ok h)
    else .isFalse (fun hh => h (Except.ok.inj hh))
  | .error a, .error b =>
    if h : a = b then .isTrue (congrArg Except.error h)
    else .isFalse (fun hh => h (Except.error.inj hh))
  | .ok _, .error _ => .isFalse (fun hh => Except.noConfusion hh)
  | .error _, .ok _ => .isFalse (fun hh => Except.noConfusion hh)

/-- Outcome of running a piece of Rust code that can return `Ok`, return a
typed `Err`, or panic (arithmetic overflow / out-of-bounds index). -/
inductive RustOutcome (ε α : Type) where
  | ok : α → RustOutcome ε α
  | err : ε → RustOutcome ε α
  | panic : RustOutcome ε α
deriving DecidableEq

/-- Rust `usize` subtraction `a - b`: panics on underflow in the debug
profile; in the release profile it wraps, and at every input reached by this
code the wrapped value then causes an out-of-bounds index panic instead, so
`none` models a panic in either profile. -/
def usize_sub (a b : Nat) : Option Nat :=
  if b ≤ a then some (a - b) else none

namespace helpers.slices

/-- Modelled from the spec: `helpers::slices::copy`, a bounds-checked byte
utility whose source is not under `src/`.  Per §6 it "copies a requested
number of bytes from a source slice at a given offset into a destination
buffer at a given offset, failing if the requested range is out of bounds",
and yields the resulting buffer. -/
def copy (src : List Nat) (srcOffset : Nat) (dst : List Nat)
    (dstOffset len : Nat) : Except Unit (List Nat) :=
  if srcOffset + len ≤ src.length ∧ dstOffset + len ≤ dst.length then
    .ok (dst.take dstOffset ++ (src.drop srcOffset).take len
          ++ dst.drop (dstOffset + len))
  else
    .error ()

/-- Modelled from the spec: `helpers::slices::to_array32`, the fixed-length
coercion whose source is not under `src/`.  Per §6 it "converts a
variable-length byte sequence into a 32-byte array, failing if the length is
not exactly 32". -/
def to_array32 (bytes : List Nat) : Except Unit Bytes32 :=
  if h : bytes.length = 32 then .ok ⟨bytes, h⟩ else .error ()

end helpers.slices

/-- `pub trait ECPublicKey` — the public-key capability set
(`serialize`, `get_type`, `get_public_key`). -/
class ECPublicKey (α : Type) where
  serialize : α → Bytes32
  get_type : α → Nat
  get_public_key : α → Bytes32

/-- `pub trait ECPrivateKey` — the private-key capability set
(`serialize`, `get_type`, `get_private_key`). -/
class ECPrivateKey (α : Type) where
  serialize : α → Bytes32
  get_type : α → Nat
  get_private_key : α → Bytes32

/-- `pub struct PublicKey(pub [u8; 32])`. -/
structure PublicKey where
  bytes : Bytes32
deriving DecidableEq

/-- `pub struct PrivateKey(pub [u8; 32])`. -/
structure PrivateKey where
  bytes : Bytes32
deriving DecidableEq

instance : ECPublicKey PublicKey where
  serialize pk := pk.bytes
  get_type _ := DJB_TYPE
  get_public_key pk := pk.bytes

instance : ECPrivateKey PrivateKey where
  serialize sk := sk.bytes
  get_type _ := DJB_TYPE
  get_private_key sk := sk.bytes

namespace Curve

/-- `Curve::decode_point(bytes, offset)` from `src/libsignal/ecc.rs`.
The guard `bytes.len() == 0 || bytes.len() - offset < 1` short-circuits, so
the `usize` subtraction only runs on a non-empty buffer. -/
def decode_point (bytes : List Nat) (offset : Nat) :
    RustOutcome InvalidKeyError PublicKey :=
  if bytes.length = 0 then
    .err ⟨"No key type identifier"⟩
  else
    match usize_sub bytes.length offset with
    | none => .panic
    | some rem =>
      if rem < 1 then
        .err ⟨"No key type identifier"⟩
      else
        match bytes.get? offset with
        | none => .panic
        | some b =>
          let type_ := b &&& 0xff
          if type_ = DJB_TYPE then
            if rem < 33 then
              .err ⟨s!"Bad key length: {bytes.length}"⟩
            else
              let key_bytes : List Nat := List.replicate 32 0
              match helpers.slices.copy bytes (offset + 1) key_bytes 0
                  key_bytes.length with
              | .ok v =>
                match helpers.slices.to_array32 v with
                | .ok arr => .ok ⟨arr⟩
                | .error _ => .err ⟨s!"Bad key type: {type_}"⟩
              | .error _ => .err ⟨s!"Bad key type: {type_}"⟩
          else
            .err ⟨s!"Bad key type: {type_}"⟩

/-- `Curve::decode_private_point(bytes)` from `src/libsignal/ecc.rs`. -/
def decode_private_point (bytes : List Nat) :
    Except InvalidKeyError PrivateKey :=
  match helpers.slices.to_array32 bytes with
  | .ok b => .ok ⟨b⟩
  | .error _ => .error ⟨"Error decoding private point"⟩

/-- `Curve::calculate_agreement(public_key, private_key)` from
`src/libsignal/ecc.rs`, generic over the two key capabilities.  The external
primitive `Curve25519::calculate_agreement` is not under `src/`; §6 of the
spec specifies it only as a pure, always-successful function from a 32-byte
public value and a 32-byte private value to a 32-byte shared secret, so it is
taken here as the parameter `curve25519_agree`. -/
def calculate_agreement {P S : Type} [ECPublicKey P] [ECPrivateKey S]
    (curve25519_agree : Bytes32 → Bytes32 → Bytes32)
    (public_key : P) (private_key : S) :
    Except InvalidKeyError Bytes32 :=
  let a := ECPublicKey.get_type public_key
  let b := ECPrivateKey.get_type private_key
  if a ≠ b ∨ a ≠ DJB_TYPE then
    .error ⟨"Public and private keys must be of the same type!"⟩
  else
    .ok (curve25519_agree (ECPublicKey.get_public_key public_key)
          (ECPrivateKey.get_private_key private_key))

end Curve

/-- The test buffer `[0x00, 0x08, 0x05] ++ [0x00; 64]` used by
`test_keypair_decode_point`. -/
def testBuffer : List Nat := [0x00, 0x08, 0x05] ++ List.replicate 64 0

/-- An all-zero 32-byte buffer. -/
def zero32 : Bytes32 := ⟨List.replicate 32 0, by simp⟩

/-- A 33-byte wire buffer: the tag followed by 32 bytes of value 1. -/
def tagOneBuffer : List Nat := DJB_TYPE :: List.replicate 32 1

lemma get?_some_lt {bytes : List Nat} {offset b : Nat}
    (hb : bytes.get? offset = some b) : offset < bytes.length := by
  by_contra hge
  rw [List.get?_eq_none.mpr (by omega)] at hb
  exact Option.noConfusion hb

/-- Shared success lemma for `decode_point`: once the tag at `offset` masks to
`DJB_TYPE` and at least 33 bytes remain, the copy and the 32-byte coercion
both succeed and the decoded key holds `bytes[offset+1 .. offset+33]`. -/
lemma decode_point_ok (bytes : List Nat) (offset b : Nat)
    (hb : bytes.get? offset = some b) (htag : b &&& 0xff = DJB_TYPE)
    (hlen : 33 ≤ bytes.length - offset) :
    ∃ pk : PublicKey, Curve.decode_point bytes offset = .ok pk ∧
      pk.bytes.val = (bytes.drop (offset + 1)).take 32 := by
  have hoff : offset + 33 ≤ bytes.length := by omega
  have h0 : ¬ bytes.length = 0 := by omega
  have hsub : usize_sub bytes.length offset = some (bytes.length - offset) := by
    rw [usize_sub, if_pos (by omega)]
  have h1 : ¬ (bytes.length - offset < 1) := by omega
  have h33 : ¬ (bytes.length - offset < 33) := by omega
  have hcopy : helpers.slices.copy bytes (offset + 1) (List.replicate 32 0) 0
      (List.replicate 32 (0:Nat)).length =
      .ok ((bytes.drop (offset + 1)).take 32) := by
    rw [helpers.slices.copy, if_pos (by simp; omega)]
    simp
  have hlen32 : ((bytes.drop (offset + 1)).take 32).length = 32 := by
    simp [List.length_take, List.length_drop]
    omega
  refine ⟨⟨⟨(bytes.drop (offset + 1)).take 32, hlen32⟩⟩, ?_, rfl⟩
  simp only [Curve.decode_point, h0, if_false, hsub, h1, hb, htag, if_true,
    h33, hcopy, helpers.slices.to_array32, hlen32, dif_pos]

/-- Claim C2: for every buffer and offset with fewer than 1 readable byte
(`len(bytes) - offset < 1`, including `offset ≥ len(bytes)`), `decode_point`
was claimed to return `InvalidKeyError("No key type identifier")` without
panicking.  The code only does so for an empty buffer (any offset) and for
`offset = len`; for `0 < len < offset` the `usize` subtraction
`bytes.len() - offset` underflows and the call panics, as this evaluation at
`bytes = [0]`, `offset = 2` shows (the two in-spec boundary cases are also
evaluated). -/
theorem decode_point_offset_underflow_panics :
    Curve.decode_point [0] 2 = RustOutcome.panic ∧
    Curve.decode_point [] 2 = .err ⟨"No key type identifier"⟩ ∧
    Curve.decode_point (List.replicate 10 0) 10 =
      .err ⟨"No key type identifier"⟩ := by
  refine ⟨by decide, by decide, by decide⟩

/-- Claim C3: when `bytes[offset] = 0x05` and at least 33 bytes are available
from `offset`, `decode_point` succeeds and the returned `PublicKey` stores
exactly `bytes[offset+1 .. offset+33]`. -/
theorem decode_point_success (bytes : List Nat) (offset : Nat)
    (htag : bytes.get? offset = some DJB_TYPE)
    (hlen : 33 ≤ bytes.length - offset) :
    ∃ pk : PublicKey, Curve.decode_point bytes offset = .ok pk ∧
      pk.bytes.val = (bytes.drop (offset + 1)).take 32 :=
  decode_point_ok bytes offset DJB_TYPE htag (by decide) hlen

/-- Witness for C3, at the spec's concrete case: the buffer
`[0x00, 0x08, 0x05] ++ [0x00; 64]` decoded at offset 2 yields the all-zero
32-byte public key. -/
theorem decode_point_success_witness :
    testBuffer.get? 2 = some DJB_TYPE ∧ 33 ≤ testBuffer.length - 2 ∧
    ∃ pk : PublicKey, Curve.decode_point testBuffer 2 = .ok pk ∧
      pk.bytes.val = (testBuffer.drop (2 + 1)).take 32 :=
  ⟨by decide, by decide, decode_point_success testBuffer 2 (by decide) (by decide)⟩

/-- Claim C5: with at least one readable byte at `offset`, a tag byte whose
low 8 bits differ from `DJB_TYPE` makes `decode_point` fail with
`InvalidKeyError("Bad key type: <tag>")` carrying the masked tag; no length
hypothesis is needed, so the type check precedes the 33-byte length check. -/
theorem decode_point_bad_type (bytes : List Nat) (offset b : Nat)
    (hb : bytes.get? offset = some b) (htag : b &&& 0xff ≠ DJB_TYPE) :
    Curve.decode_point bytes offset = .err ⟨s!"Bad key type: {b &&& 0xff}"⟩ := by
  have hlt : offset < bytes.length := get?_some_lt hb
  have h0 : ¬ bytes.length = 0 := by omega
  have hsub : usize_sub bytes.length offset = some (bytes.length - offset) := by
    rw [usize_sub, if_pos (by omega)]
  have h1 : ¬ (bytes.length - offset < 1) := by omega
  simp only [Curve.decode_point, h0, if_false, hsub, h1, hb, htag]

/-- Witness for C5: a one-byte buffer holding the unsupported tag 7 is
rejected with the type error, not the length error, even though it is far
shorter than 33 bytes. -/
theorem decode_point_bad_type_witness :
    ([7] : List Nat).get? 0 = some 7 ∧ ((7:Nat) &&& 0xff ≠ DJB_TYPE) ∧
    Curve.decode_point [7] 0 = .err ⟨s!"Bad key type: {(7:Nat) &&& 0xff}"⟩ :=
  ⟨by decide, by decide, decode_point_bad_type [7] 0 7 (by decide) (by decide)⟩

/-- Claim C6: with the supported tag at `offset` but fewer than 33 bytes
available from `offset`, `decode_point` fails with
`InvalidKeyError("Bad key length: <len>")`, where `<len>` is the total buffer
length `bytes.length`, not the remaining length from `offset`. -/
theorem decode_point_bad_length (bytes : List Nat) (offset b : Nat)
    (hb : bytes.get? offset = some b) (htag : b &&& 0xff = DJB_TYPE)
    (hshort : bytes.length - offset < 33) :
    Curve.decode_point bytes offset =
      .err ⟨s!"Bad key length: {bytes.length}"⟩ := by
  have hlt : offset < bytes.length := get?_some_lt hb
  have h0 : ¬ bytes.length = 0 := by omega
  have hsub : usize_sub bytes.length offset = some (bytes.length - offset) := by
    rw [usize_sub, if_pos (by omega)]
  have h1 : ¬ (bytes.length - offset < 1) := by omega
  simp only [Curve.decode_point, h0, if_false, hsub, h1, hb, htag, if_true,
    hshort]

/-- Witness for C6: the buffer `[0x00, 0x05]` at offset 1 has a valid tag and
1 remaining byte; the reported length is the total length 2, not the
remaining length 1. -/
theorem decode_point_bad_length_witness :
    ([0, 5] : List Nat).get? 1 = some 5 ∧ ((5:Nat) &&& 0xff = DJB_TYPE) ∧
    (([0, 5] : List Nat).length - 1 < 33) ∧
    Curve.decode_point [0, 5] 1 =
      .err ⟨s!"Bad key length: {([0, 5] : List Nat).length}"⟩ :=
  ⟨by decide, by decide, by decide,
    decode_point_bad_length [0, 5] 1 5 (by decide) (by decide) (by decide)⟩

/-- Claim C10: once the masked tag equals `DJB_TYPE` and at least 33 bytes
remain from `offset`, the two inner `Bad key type` failure branches (copy
failure, 32-byte coercion failure) are unreachable: `decode_point` always
succeeds. -/
theorem decode_point_inner_branches_unreachable (bytes : List Nat)
    (offset b : Nat) (hb : bytes.get? offset = some b)
    (htag : b &&& 0xff = DJB_TYPE) (hlen : 33 ≤ bytes.length - offset) :
    ∃ pk : PublicKey, Curve.decode_point bytes offset = .ok pk := by
  obtain ⟨pk, hok, -⟩ := decode_point_ok bytes offset b hb htag hlen
  exact ⟨pk, hok⟩

/-- Witness for C10: a 33-byte buffer with the tag followed by 32 bytes of
value 1 decodes successfully at offset 0. -/
theorem decode_point_inner_branches_unreachable_witness :
    tagOneBuffer.get? 0 = some DJB_TYPE ∧
    (DJB_TYPE &&& 0xff = DJB_TYPE) ∧ 33 ≤ tagOneBuffer.length - 0 ∧
    ∃ pk : PublicKey, Curve.decode_point tagOneBuffer 0 = .ok pk :=
  ⟨by decide, by decide, by decide,
    decode_point_inner_branches_unreachable tagOneBuffer 0 DJB_TYPE
      (by decide) (by decide) (by decide)⟩

/-- Claim C4: `decode_private_point bytes` succeeds exactly when
`bytes.length = 32`, returning a `PrivateKey` wrapping those 32 bytes; every
other length fails with `InvalidKeyError("Error decoding private point")`. -/
theorem decode_private_point_spec (bytes : List Nat) :
    ((∃ sk : PrivateKey, Curve.decode_private_point bytes = .ok sk ∧
        sk.bytes.val = bytes) ↔ bytes.length = 32) ∧
    (bytes.length = 32 ∨ Curve.decode_private_point bytes =
        .error ⟨"Error decoding private point"⟩) := by
  by_cases h : bytes.length = 32
  · refine ⟨⟨fun _ => h, fun _ => ⟨⟨⟨bytes, h⟩⟩, ?_, rfl⟩⟩, Or.inl h⟩
    simp [Curve.decode_private_point, helpers.slices.to_array32, h]
  · have herr : Curve.decode_private_point bytes =
        .error ⟨"Error decoding private point"⟩ := by
      simp [Curve.decode_private_point, helpers.slices.to_array32, h]
    refine ⟨⟨fun ⟨sk, hok, _⟩ => ?_, fun hl => absurd hl h⟩, Or.inr herr⟩
    rw [herr] at hok
    exact Except.noConfusion hok

/-- Claim C7: decoding any 32-byte value as a private key and serializing it
returns exactly the input, and `serialize` on either key kind returns the
stored 32 bytes unchanged (no transformation, no tag prefix). -/
theorem serialize_round_trip :
    (∀ m : Bytes32, ∃ sk : PrivateKey,
        Curve.decode_private_point m.val = .ok sk ∧
        (ECPrivateKey.serialize sk).val = m.val) ∧
    (∀ pk : PublicKey, ECPublicKey.serialize pk = pk.bytes) ∧
    (∀ sk : PrivateKey, ECPrivateKey.serialize sk = sk.bytes) := by
  refine ⟨fun m => ⟨⟨⟨m.val, m.property⟩⟩, ?_, rfl⟩, fun _ => rfl, fun _ => rfl⟩
  simp [Curve.decode_private_point, helpers.slices.to_array32, m.property]

/-- Claim C1: over any types implementing the two key capabilities and any
curve primitive, `calculate_agreement` fails with
`InvalidKeyError("Public and private keys must be of the same type!")` iff
the two type tags differ from each other or either differs from `DJB_TYPE`;
when both tags equal `DJB_TYPE` it returns `Ok` of the primitive applied to
(public bytes, private bytes), unchanged. -/
theorem calculate_agreement_spec {P S : Type} [ECPublicKey P] [ECPrivateKey S]
    (curve25519_agree : Bytes32 → Bytes32 → Bytes32) (pk : P) (sk : S) :
    (Curve.calculate_agreement curve25519_agree pk sk =
        .error ⟨"Public and private keys must be of the same type!"⟩ ↔
      (ECPublicKey.get_type pk ≠ ECPrivateKey.get_type sk ∨
        ECPublicKey.get_type pk ≠ DJB_TYPE ∨
        ECPrivateKey.get_type sk ≠ DJB_TYPE)) ∧
    ((ECPublicKey.get_type pk = DJB_TYPE ∧
        ECPrivateKey.get_type sk = DJB_TYPE) →
      Curve.calculate_agreement curve25519_agree pk sk =
        .ok (curve25519_agree (ECPublicKey.get_public_key pk)
          (ECPrivateKey.get_private_key sk))) := by
  by_cases hab : ECPublicKey.get_type pk = ECPrivateKey.get_type sk <;>
    by_cases ha : ECPublicKey.get_type pk = DJB_TYPE
  all_goals simp [Curve.calculate_agreement, hab, ha]
  all_goals omega

/-- Witness for C1: at the concrete key types with all-zero keys and the
first-projection primitive, both tags equal `DJB_TYPE` and agreement passes
the public bytes through. -/
theorem calculate_agreement_spec_witness :
    ECPublicKey.get_type (PublicKey.mk zero32) = DJB_TYPE ∧
    ECPrivateKey.get_type (PrivateKey.mk zero32) = DJB_TYPE ∧
    Curve.calculate_agreement (fun a _ => a) (PublicKey.mk zero32)
      (PrivateKey.mk zero32) = .ok zero32 :=
  ⟨rfl, rfl,
    (calculate_agreement_spec (fun a _ => a) (PublicKey.mk zero32)
      (PrivateKey.mk zero32)).2 ⟨rfl, rfl⟩⟩

/-- Claim C8: `calculate_agreement` is deterministic — the same operands give
the same result — and every successful result is exactly 32 bytes long. -/
theorem calculate_agreement_deterministic {P S : Type} [ECPublicKey P]
    [ECPrivateKey S] (curve25519_agree : Bytes32 → Bytes32 → Bytes32)
    (pk : P) (sk : S) :
    Curve.calculate_agreement curve25519_agree pk sk =
      Curve.calculate_agreement curve25519_agree pk sk ∧
    ∀ v : Bytes32, Curve.calculate_agreement curve25519_agree pk sk =
      .ok v → v.val.length = 32 :=
  ⟨rfl, fun v _ => v.property⟩

/-- Witness for C8: a concrete successful agreement whose 32-byte output
length is certified through the theorem. -/
theorem calculate_agreement_deterministic_witness :
    Curve.calculate_agreement (fun _ b => b) (PublicKey.mk zero32)
      (PrivateKey.mk zero32) = .ok zero32 ∧ zero32.val.length = 32 :=
  ⟨by decide,
    (calculate_agreement_deterministic (fun _ b => b) (PublicKey.mk zero32)
      (PrivateKey.mk zero32)).2 zero32 (by decide)⟩

/-- Claim C9: on the concrete `PublicKey` and `PrivateKey` types, `get_type`
always returns `DJB_TYPE = 0x05`, so `calculate_agreement` never takes its
type-mismatch error branch: it returns `Ok` of the primitive applied to the
stored bytes, for every such pair of keys. -/
theorem concrete_keys_never_mismatch
    (curve25519_agree : Bytes32 → Bytes32 → Bytes32)
    (pk : PublicKey) (sk : PrivateKey) :
    ECPublicKey.get_type pk = DJB_TYPE ∧
    ECPrivateKey.get_type sk = DJB_TYPE ∧
    Curve.calculate_agreement curve25519_agree pk sk =
      .ok (curve25519_agree pk.bytes sk.bytes) := by
  have h1 : ECPublicKey.get_type pk = DJB_TYPE := rfl
  have h2 : ECPrivateKey.get_type sk = DJB_TYPE := rfl
  have h3 : ECPublicKey.get_public_key pk = pk.bytes := rfl
  have h4 : ECPrivateKey.get_private_key sk = sk.bytes := rfl
  refine ⟨h1, h2, ?_⟩
  simp [Curve.calculate_agreement, h1, h2, h3, h4]
